import Mathlib

/-!
Verification of the AirSight region-selection core against its source.

The embedding mirrors:
- `useDashboardRegions` (saved regions, active id, temporary selection,
  bootstrap effect, upsert/activate/select/remove/persist/clear operations),
- the `AqiMap` viewport controller (`mapCenter`, `shouldUpdateCenter`,
  `userHasPanned`, the center-sync effect, `handleRecenterMap`,
  `handleMapMove`),
- the `LocationPanel` search flow (`performSearch`, `handleSearchChange`
  debouncing),
- the `useCurrentLocation` geolocation hook.

Coordinates are modelled as rationals: the source stores decimal literals
and only ever copies or compares them, never does float arithmetic on them.
-/

/-- `DashboardRegion` from `useDashboardRegions`: a named geographic point. -/
structure DashboardRegion where
  id : String
  name : String
  regionLabel : String
  lat : ℚ
  lon : ℚ
  country : Option String := none
  admin : Option String := none
  deriving Repr, DecidableEq

/-- `MAX_REGIONS = 6` from `useDashboardRegions`. -/
def MAX_REGIONS : Nat := 6

/-- `DEFAULT_REGION` from `useDashboardRegions`: the built-in NYC default. -/
def DEFAULT_REGION : DashboardRegion :=
  { id := "default-nyc"
    name := "New York City"
    regionLabel := "New York City, NY"
    lat := 40.7128
    lon := -74.0060
    country := some "US"
    admin := some "NY" }

/-- The in-memory state of `useDashboardRegions`: the saved list (`regions`),
the persisted active id (`activeId`) and the transient selection
(`temporary`). -/
structure StoreState where
  regions : List DashboardRegion
  activeId : Option String
  temporary : Option DashboardRegion
  deriving Repr, DecidableEq

/-- `upsertRegion`'s list update:
`[region, ...prev.filter(item => item.id !== region.id)].slice(0, MAX_REGIONS)`. -/
def upsertRegion (region : DashboardRegion) (prev : List DashboardRegion) :
    List DashboardRegion :=
  (region :: prev.filter (fun item => item.id ≠ region.id)).take MAX_REGIONS

/-- `upsertRegion` lifted to the whole store state (it only touches `regions`). -/
def StoreState.upsert (s : StoreState) (region : DashboardRegion) : StoreState :=
  { s with regions := upsertRegion region s.regions }

/-- `activateRegion(region, options)`: with `persist = false` it sets the
temporary selection and clears the active id if one is set; otherwise it
clears the temporary selection, upserts and activates. -/
def StoreState.activate (s : StoreState) (region : DashboardRegion)
    (persist : Bool) : StoreState :=
  if persist = false then
    { s with
      temporary := some region
      activeId := if s.activeId.isSome then none else s.activeId }
  else
    { regions := upsertRegion region s.regions
      activeId := some region.id
      temporary := none }

/-- `selectExisting(id)`: no-op when the id is absent from the saved list,
otherwise clears the temporary selection and sets the active id. -/
def StoreState.selectExisting (s : StoreState) (id : String) : StoreState :=
  match s.regions.find? (fun item => item.id = id) with
  | none => s
  | some _ => { s with temporary := none, activeId := some id }

/-- `removeRegion(id)`: filters the saved list; when the removed id was
active, falls back to the first remaining region (or null); when it equals
the temporary selection's id, clears the temporary selection. -/
def StoreState.remove (s : StoreState) (id : String) : StoreState :=
  let next := s.regions.filter (fun item => item.id ≠ id)
  { regions := next
    activeId :=
      if s.activeId = some id then next.head?.map (fun r => r.id)
      else s.activeId
    temporary :=
      if s.temporary.map (fun r => r.id) = some id then none else s.temporary }

/-- `persistTemporary()`: when a temporary selection exists, clears it,
upserts it and activates it. -/
def StoreState.persistTemporary (s : StoreState) : StoreState :=
  match s.temporary with
  | none => s
  | some t =>
      { regions := upsertRegion t s.regions
        activeId := some t.id
        temporary := none }

/-- `clearTemporary()`: discards the temporary selection; when no active id
is set and saved regions exist, falls back to the first saved region. -/
def StoreState.clearTemporary (s : StoreState) : StoreState :=
  { s with
    temporary := none
    activeId :=
      if s.activeId.isNone then
        match s.regions.head? with
        | some r => some r.id
        | none => s.activeId
      else s.activeId }

/-- The bootstrap effect of `useDashboardRegions`: when there is no
temporary selection and no active id, activate the first saved region, or
seed and activate `DEFAULT_REGION` when the saved list is empty. -/
def StoreState.bootstrap (s : StoreState) : StoreState :=
  if s.temporary.isSome ∨ s.activeId.isSome then s
  else if 0 < s.regions.length then
    { s with activeId := s.regions.head?.map (fun r => r.id) }
  else
    { s with activeId := some DEFAULT_REGION.id, regions := [DEFAULT_REGION] }

/-- The derived read `activeRegion` (`currentSelection()`): the temporary
selection when present, else the saved region matching the active id,
else none. -/
def StoreState.activeRegion (s : StoreState) : Option DashboardRegion :=
  match s.temporary with
  | some t => some t
  | none =>
      match s.activeId with
      | none => none
      | some id => s.regions.find? (fun region => region.id = id)

/-- The derived flag `isTemporary`:
`!!temporary && (!activeId || temporary.id !== activeId)`. -/
def StoreState.isTemporary (s : StoreState) : Bool :=
  match s.temporary, s.activeId with
  | none, _ => false
  | some _, none => true
  | some t, some a => t.id ≠ a

/-! ## Map viewport controller (`AqiMap` in the map component)

`MapEventHandler` registers `handleMapMove` on every Leaflet `movestart`
event, with no origin guard, and Leaflet raises `movestart` for
programmatic moves as well: the `map.setView(center, zoom)` performed by
`MapCenterController` raises it whenever the target differs from the view
currently rendered. The model therefore carries the rendered Leaflet view
and routes every actual view change — programmatic or user-driven —
through `handleMapMove`. -/

/-- The viewport state of `AqiMap` together with the Leaflet map surface:
the React state `mapCenter`, `shouldUpdateCenter`, `userHasPanned`, the
`center` prop (the active selection's coordinates, nullable), and the view
Leaflet currently renders (`leafletView`). `userHasPanned = false` is the
`FOLLOWING` state, `userHasPanned = true` is `PANNED`. -/
structure MapState where
  selection : Option (ℚ × ℚ)
  mapCenter : ℚ × ℚ
  shouldUpdateCenter : Bool
  userHasPanned : Bool
  leafletView : ℚ × ℚ
  deriving Repr, DecidableEq

/-- The external events driving the viewport controller: a change of the
`center` prop (selection change), a user pan gesture dragging the view to
`target`, and a click of the recenter button (`handleRecenterMap`). The
`movestart` events Leaflet raises for the controller's own `setView` are
not separate inputs: they fire inside the steps below. -/
inductive MapEvent where
  | selectionChange (center : Option (ℚ × ℚ))
  | userPan (target : ℚ × ℚ)
  | recenter
  deriving Repr, DecidableEq

/-- `MapCenterController`'s effect: with `shouldUpdate` set it calls
`map.setView(center, zoom)`; when that changes the rendered view, Leaflet
raises `movestart`, which runs `handleMapMove` (`userHasPanned := true`,
`shouldUpdateCenter := false`) before the view settles on the target. A
`setView` onto the already-rendered view moves nothing and raises no
event. -/
def setViewEffect (s : MapState) : MapState :=
  if s.shouldUpdateCenter ∧ s.mapCenter ≠ s.leafletView then
    { s with userHasPanned := true, shouldUpdateCenter := false,
             leafletView := s.mapCenter }
  else s

/-- One settled step of the `AqiMap` controller.
`selectionChange` runs the center-sync effect: when the new `center` is
non-null and the user has not panned, it copies it into `mapCenter`,
requests an update, and `MapCenterController` performs the `setView`
(`setViewEffect`, movestart included); otherwise it only disables updates.
`userPan` is a user drag: `movestart` runs `handleMapMove` and the view
follows the gesture. `recenter` is `handleRecenterMap` (a no-op when
`center` is null) followed by the re-run effects, `setView` included. -/
def mapStep (s : MapState) : MapEvent → MapState
  | MapEvent.selectionChange c =>
      match c with
      | some p =>
          if s.userHasPanned then
            { s with selection := c, shouldUpdateCenter := false }
          else
            setViewEffect
              { s with selection := c, mapCenter := p,
                       shouldUpdateCenter := true }
      | none => { s with selection := none, shouldUpdateCenter := false }
  | MapEvent.userPan target =>
      { s with userHasPanned := true, shouldUpdateCenter := false,
               leafletView := target }
  | MapEvent.recenter =>
      match s.selection with
      | some p =>
          setViewEffect
            { s with mapCenter := p, shouldUpdateCenter := true,
                     userHasPanned := false }
      | none => s

/-- The `FOLLOWING` state of `AqiMap` with selection, React center and
rendered Leaflet view all on `p`. -/
def mapFollowing (p : ℚ × ℚ) : MapState :=
  { selection := some p
    mapCenter := p
    shouldUpdateCenter := true
    userHasPanned := false
    leafletView := p }

/-! ## Text search flow (`LocationPanel`) -/

/-- Modelled from the spec: `LocationSearchResult`, the element type of the
search endpoint's response, declared in the shared API module that is not
part of the sources; §6 gives its shape (display name, optional
administrative area/state, latitude, longitude, optional population, type
tag). `performSearch` only moves whole values of this type around. -/
structure LocationSearchResult where
  name : String
  state : Option String
  lat : ℚ
  lon : ℚ
  population : Option ℕ
  locType : String
  deriving Repr, DecidableEq

/-- The search-related state of `LocationPanel`, with a ghost field
`latestIssued` recording the query of the most recently issued request
(the code itself keeps no such record). -/
structure SearchState where
  searchResults : List LocationSearchResult
  showResults : Bool
  isSearching : Bool
  latestIssued : Option String
  deriving Repr, DecidableEq

/-- Outcome of one `fetch` in `performSearch`: a parsed response body, or a
network / non-ok / parse failure (the `catch` path). -/
inductive SearchOutcome where
  | ok (results : List LocationSearchResult)
  | err
  deriving Repr, DecidableEq

/-- The synchronous head of `performSearch(query)`: for a query shorter
than 2 characters it clears the results and issues nothing; otherwise it
sets `isSearching` and issues the request (recorded in `latestIssued`). -/
def issueSearch (s : SearchState) (query : String) : SearchState :=
  if query.length < 2 then
    { s with searchResults := [], showResults := false }
  else
    { s with isSearching := true, latestIssued := some query }

/-- The continuation of `performSearch` once the response for `query`
arrives: it applies the response unconditionally — there is no comparison
of `query` against the latest issued query anywhere in the handler. -/
def applyResponse (s : SearchState) (_query : String)
    (outcome : SearchOutcome) : SearchState :=
  match outcome with
  | SearchOutcome.ok results =>
      { s with
        searchResults := results
        showResults := 0 < results.length
        isSearching := false }
  | SearchOutcome.err =>
      { s with searchResults := [], showResults := false, isSearching := false }

/-! ## Debounce timer model (`handleSearchChange`) -/

/-- `DEBOUNCE_MS = 300`, the delay passed to `setTimeout` in
`handleSearchChange`. -/
def DEBOUNCE_MS : Nat := 300

/-- The debounce state: the pending not-yet-fired timer (query and absolute
fire time), and the list of issued search requests (query, issue time) in
order. A fired timer runs `performSearch(value)`, which issues a request
only for queries of length at least 2. -/
structure DebounceState where
  pending : Option (String × Nat)
  issued : List (String × Nat)
  deriving Repr, DecidableEq

/-- Fire the pending timer when its deadline lies strictly before time `t`. -/
def fireBefore (s : DebounceState) (t : Nat) : DebounceState :=
  match s.pending with
  | some (q, d) =>
      if d < t then
        { pending := none
          issued := if 2 ≤ q.length then s.issued ++ [(q, d)] else s.issued }
      else s
  | none => s

/-- A keystroke at time `t` with current input `q`: any timer that would
fire strictly before `t` has fired; a timer still pending at `t` is
cancelled (`clearTimeout`), and a new timer is scheduled for
`t + DEBOUNCE_MS` (`setTimeout(..., 300)`). -/
def keystroke (s : DebounceState) (t : Nat) (q : String) : DebounceState :=
  let s := fireBefore s t
  { s with pending := some (q, t + DEBOUNCE_MS) }

/-- Run a whole keystroke trace, then let the final pending timer (if any)
fire undisturbed; returns the list of issued requests in order. -/
def runDebounce (keys : List (Nat × String)) : List (String × Nat) :=
  let final := keys.foldl (fun s k => keystroke s k.1 k.2)
    { pending := none, issued := [] }
  match final.pending with
  | some (q, d) =>
      if 2 ≤ q.length then final.issued ++ [(q, d)] else final.issued
  | none => final.issued

/-! ## Geolocation (`useCurrentLocation`) -/

/-- `NYC_COORDINATES`, the fixed fallback coordinate. -/
def NYC_COORDINATES : ℚ × ℚ := (40.7128, -74.006)

/-- The possible settlements of one `request()` call: the geolocation
capability is absent, the success callback fires with a position, or the
error callback fires (denial, timeout, failure). -/
inductive GeoOutcome where
  | unsupported
  | success (lat lon : ℚ)
  | failure
  deriving Repr, DecidableEq

/-- What `request()` resolves to and the value of `locating` once the call
has settled. -/
structure GeoResult where
  coords : ℚ × ℚ
  locating : Bool
  deriving Repr, DecidableEq

/-- `useCurrentLocation().request()`, settled: a total function — every
outcome resolves to coordinates (the fallback on unsupported/failure) with
`locating` reset; no branch rejects or throws. -/
def requestLocation : GeoOutcome → GeoResult
  | GeoOutcome.unsupported => { coords := NYC_COORDINATES, locating := false }
  | GeoOutcome.success lat lon => { coords := (lat, lon), locating := false }
  | GeoOutcome.failure => { coords := NYC_COORDINATES, locating := false }

/-! ## Sample data for witnesses -/

/-- A concrete region with id `"a"`. -/
def regionA : DashboardRegion :=
  { id := "a", name := "Alpha", regionLabel := "Alpha", lat := 1, lon := 2 }

/-- A second concrete region with the same id `"a"` but different payload. -/
def regionA2 : DashboardRegion :=
  { id := "a", name := "Alpha II", regionLabel := "Alpha II", lat := 3, lon := 4 }

/-- A concrete region with id `"b"`. -/
def regionB : DashboardRegion :=
  { id := "b", name := "Beta", regionLabel := "Beta", lat := 5, lon := 6 }

/-! ## Claims -/

/-- C4: whenever the temporary selection is non-null, `currentSelection()`
(`activeRegion`) returns it, for every persisted active id and saved list. -/
theorem C4_selection_precedence (s : StoreState) (t : DashboardRegion)
    (h : s.temporary = some t) : s.activeRegion = some t := by
  simp [StoreState.activeRegion, h]

theorem C4_witness :
    ({ regions := [regionB], activeId := some "b", temporary := some regionA }
      : StoreState).activeRegion = some regionA :=
  C4_selection_precedence _ regionA rfl

/-- C5: removing the active id sets the active id to the first remaining
saved region's id (none when the list becomes empty), and removing the
temporary selection's id clears the temporary selection. -/
theorem C5_removal_cascade (s : StoreState) (id : String) :
    (s.activeId = some id →
      (s.remove id).activeId =
        (s.regions.filter (fun item => item.id ≠ id)).head?.map
          (fun r => r.id)) ∧
    (s.temporary.map (fun r => r.id) = some id →
      (s.remove id).temporary = none) := by
  constructor <;> intro h <;> simp [StoreState.remove, h]

theorem C5_witness :
    (({ regions := [regionA, regionB], activeId := some "a",
        temporary := some regionA } : StoreState).remove "a").activeId =
      (([regionA, regionB].filter (fun item => item.id ≠ "a")).head?.map
        (fun r => r.id)) ∧
    (({ regions := [regionA, regionB], activeId := some "a",
        temporary := some regionA } : StoreState).remove "a").temporary = none :=
  ⟨(C5_removal_cascade _ "a").1 rfl, (C5_removal_cascade _ "a").2 (by decide)⟩

/-- C6: from empty persisted storage, bootstrap seeds and activates the
built-in NYC default region and `currentSelection()` returns it. -/
theorem C6_bootstrap :
    (StoreState.bootstrap
        { regions := [], activeId := none, temporary := none }).activeRegion =
      some DEFAULT_REGION ∧
    (StoreState.bootstrap
        { regions := [], activeId := none, temporary := none }).regions =
      [DEFAULT_REGION] ∧
    (StoreState.bootstrap
        { regions := [], activeId := none, temporary := none }).activeId =
      some DEFAULT_REGION.id := by
  refine ⟨?_, ?_, ?_⟩ <;> rfl

/-- C8: for keystrokes at t=0 ("a"), t=100 ("ab"), t=400 ("abc") under the
300 ms debounce model, exactly one request is issued, for "abc", at t=700. -/
theorem C8_debounce_correctness :
    runDebounce [(0, "a"), (100, "ab"), (400, "abc")] = [("abc", 700)] := by
  decide

/-- C9: every failing settlement of a geolocation request (capability
absent, or the device error callback) resolves to the fixed NYC fallback
with the locating flag cleared; `requestLocation` is total, so no outcome
surfaces an error. -/
theorem C9_geolocation_fallback (o : GeoOutcome)
    (h : o = GeoOutcome.unsupported ∨ o = GeoOutcome.failure) :
    requestLocation o = { coords := NYC_COORDINATES, locating := false } := by
  rcases h with h | h <;> subst h <;> rfl

theorem C9_witness :
    requestLocation GeoOutcome.failure =
      { coords := NYC_COORDINATES, locating := false } :=
  C9_geolocation_fallback GeoOutcome.failure (Or.inr rfl)

/-- C10: when the temporary selection's id equals the persisted active id,
`isTemporary` is false while `activeRegion` still returns the temporary
object; and `isTemporary` is true exactly when a temporary selection exists
and either no active id is set or the ids differ. -/
theorem C10_isTemporary_characterization (s : StoreState) :
    (∀ t a, s.temporary = some t → s.activeId = some a → t.id = a →
      s.isTemporary = false ∧ s.activeRegion = some t) ∧
    (s.isTemporary = true ↔
      ∃ t, s.temporary = some t ∧
        (s.activeId = none ∨ s.activeId ≠ some t.id)) := by
  constructor
  · intro t a ht ha hid
    refine ⟨?_, by simp [StoreState.activeRegion, ht]⟩
    simp [StoreState.isTemporary, ht, ha, hid]
  · cases htmp : s.temporary with
    | none => simp [StoreState.isTemporary, htmp]
    | some t =>
        cases hact : s.activeId with
        | none => simp [StoreState.isTemporary, htmp, hact]
        | some a =>
            simp only [StoreState.isTemporary, htmp, hact]
            constructor
            · intro h
              simp only [ne_eq, decide_eq_true_eq] at h
              refine ⟨t, rfl, Or.inr ?_⟩
              intro hc
              exact h (Option.some.inj hc).symm
            · rintro ⟨u, hu, hcase⟩
              obtain rfl : t = u := Option.some.inj hu
              rcases hcase with h | h
              · simp at h
              · refine decide_eq_true ?_
                intro hc
                exact h (congrArg some hc.symm)

theorem C10_witness :
    ({ regions := [regionA], activeId := some "a", temporary := some regionA2 }
      : StoreState).isTemporary = false ∧
    ({ regions := [regionA], activeId := some "a", temporary := some regionA2 }
      : StoreState).activeRegion = some regionA2 :=
  (C10_isTemporary_characterization _).1 regionA2 "a" rfl rfl rfl

/-- C1: evaluating the code at the failing input. In FOLLOWING with
selection and rendered view at (1, 2), a selection change to (3, 4) does
move `mapCenter` to (3, 4), but the controller's own `setView` raises
`movestart`, `handleMapMove` runs, and the step ends with
`userHasPanned = true`: the programmatic center update itself causes the
FOLLOWING-to-PANNED transition with no user gesture. Likewise a recenter
after a user pan to (9, 9) performs its `setView`, re-raises `movestart`
and ends in PANNED instead of returning to FOLLOWING — contradicting the
claim that PANNED is reachable only via user-originated movement. -/
theorem C1_programmatic_move_causes_panned :
    (mapStep (mapFollowing (1, 2))
        (MapEvent.selectionChange (some (3, 4)))).mapCenter = (3, 4) ∧
    (mapStep (mapFollowing (1, 2))
        (MapEvent.selectionChange (some (3, 4)))).userHasPanned = true ∧
    (mapStep (mapStep (mapFollowing (1, 2)) (MapEvent.userPan (9, 9)))
        MapEvent.recenter).mapCenter = (1, 2) ∧
    (mapStep (mapStep (mapFollowing (1, 2)) (MapEvent.userPan (9, 9)))
        MapEvent.recenter).userHasPanned = true := by
  refine ⟨?_, ?_, ?_, ?_⟩ <;> decide

/-! ## Lemmas about `upsertRegion` -/

/-- Filtering keeps the saved list's ids duplicate-free. -/
theorem filter_ids_nodup (p : DashboardRegion → Bool)
    (l : List DashboardRegion) (h : (l.map (fun x => x.id)).Nodup) :
    ((l.filter p).map (fun x => x.id)).Nodup := by
  have hsub : List.Sublist ((l.filter p).map (fun x => x.id))
      (l.map (fun x => x.id)) :=
    List.Sublist.map _ (List.filter_sublist l)
  exact List.Nodup.sublist hsub h

/-- One `upsertRegion` keeps ids duplicate-free. -/
theorem upsertRegion_ids_nodup (r : DashboardRegion)
    (l : List DashboardRegion) (h : (l.map (fun x => x.id)).Nodup) :
    ((upsertRegion r l).map (fun x => x.id)).Nodup := by
  have htail := filter_ids_nodup (fun item => decide (item.id ≠ r.id)) l h
  have hcons : ((r :: l.filter (fun item => item.id ≠ r.id)).map
      (fun x => x.id)).Nodup := by
    simp only [List.map_cons, List.nodup_cons]
    refine ⟨?_, htail⟩
    intro hmem
    obtain ⟨x, hx, hid⟩ := List.mem_map.mp hmem
    have hpx := (List.mem_filter.mp hx).2
    simp only [decide_eq_true_eq] at hpx
    exact hpx hid
  have hsub : List.Sublist ((upsertRegion r l).map (fun x => x.id))
      ((r :: l.filter (fun item => item.id ≠ r.id)).map (fun x => x.id)) := by
    unfold upsertRegion
    exact List.Sublist.map _ (List.take_sublist _ _)
  exact List.Nodup.sublist hsub hcons

/-- One `upsertRegion` never exceeds the cap (the `slice(0, 6)`). -/
theorem upsertRegion_length_le (r : DashboardRegion)
    (l : List DashboardRegion) :
    (upsertRegion r l).length ≤ MAX_REGIONS := by
  unfold upsertRegion
  exact List.length_take_le _ _

/-- When `id0` occurs among duplicate-free ids, filtering it out removes
exactly one entry. -/
theorem filter_ids_length_of_mem (id0 : String) (l : List DashboardRegion)
    (hnodup : (l.map (fun x => x.id)).Nodup)
    (hmem : id0 ∈ l.map (fun x => x.id)) :
    (l.filter (fun x => x.id ≠ id0)).length + 1 = l.length := by
  induction l with
  | nil => simp at hmem
  | cons a tl ih =>
      simp only [List.map_cons, List.nodup_cons] at hnodup
      obtain ⟨hna, hnd⟩ := hnodup
      simp only [List.map_cons, List.mem_cons] at hmem
      rcases hmem with h | h
      · subst h
        simp only [List.filter_cons, ne_eq, decide_not, List.length_cons]
        simp
        intro x hx hc
        exact hna (hc ▸ List.mem_map_of_mem (fun y => y.id) hx)
      · have hane : a.id ≠ id0 := by
          intro hc
          exact hna (hc ▸ h)
        have hrec := ih hnd h
        simp only [List.filter_cons, hane, decide_eq_true hane, if_pos,
          List.length_cons]
        omega

/-! ## C2, C3 -/

/-- C2: from any saved list of length at most 6 with pairwise distinct ids,
every sequence of upserts keeps the length at most 6 and the ids pairwise
distinct (every intermediate state is the fold over a prefix). -/
theorem C2_cap_invariant (ops init : List DashboardRegion)
    (hlen : init.length ≤ MAX_REGIONS)
    (hnodup : (init.map (fun r => r.id)).Nodup) :
    (ops.foldl (fun acc r => upsertRegion r acc) init).length ≤ MAX_REGIONS ∧
    ((ops.foldl (fun acc r => upsertRegion r acc) init).map
      (fun r => r.id)).Nodup := by
  induction ops generalizing init with
  | nil => exact ⟨hlen, hnodup⟩
  | cons r rest ih =>
      simpa only [List.foldl_cons] using
        ih (upsertRegion r init) (upsertRegion_length_le r init)
          (upsertRegion_ids_nodup r init hnodup)

theorem C2_witness :
    (([] : List DashboardRegion).length ≤ MAX_REGIONS ∧
      (([] : List DashboardRegion).map (fun r => r.id)).Nodup) ∧
    (([regionA, regionB, regionA2].foldl
        (fun acc r => upsertRegion r acc) []).length ≤ MAX_REGIONS ∧
      (([regionA, regionB, regionA2].foldl
        (fun acc r => upsertRegion r acc) []).map (fun r => r.id)).Nodup) :=
  ⟨⟨by decide, by decide⟩,
   C2_cap_invariant [regionA, regionB, regionA2] [] (by decide) (by decide)⟩

/-- C3: upserting a region whose id is already present in a saved list
(the list satisfying the store invariant) yields the upserted region in
front of the old list with the matching entry removed and all other
entries in their relative order, at unchanged length. -/
theorem C3_recency_ordering (r : DashboardRegion) (l : List DashboardRegion)
    (hlen : l.length ≤ MAX_REGIONS)
    (hnodup : (l.map (fun x => x.id)).Nodup)
    (hmem : r.id ∈ l.map (fun x => x.id)) :
    upsertRegion r l = r :: l.filter (fun x => x.id ≠ r.id) ∧
    (upsertRegion r l).length = l.length := by
  have hflt := filter_ids_length_of_mem r.id l hnodup hmem
  have hle : (r :: l.filter (fun x => x.id ≠ r.id)).length ≤ MAX_REGIONS := by
    simp only [List.length_cons]
    omega
  have heq : upsertRegion r l = r :: l.filter (fun x => x.id ≠ r.id) := by
    unfold upsertRegion
    exact List.take_of_length_le hle
  refine ⟨heq, ?_⟩
  rw [heq]
  simp only [List.length_cons]
  omega

theorem C3_witness :
    (([regionA, regionB] : List DashboardRegion).length ≤ MAX_REGIONS ∧
      ([regionA, regionB].map (fun x => x.id)).Nodup ∧
      regionA2.id ∈ [regionA, regionB].map (fun x => x.id)) ∧
    (upsertRegion regionA2 [regionA, regionB] =
        regionA2 :: [regionA, regionB].filter (fun x => x.id ≠ regionA2.id) ∧
      (upsertRegion regionA2 [regionA, regionB]).length =
        ([regionA, regionB] : List DashboardRegion).length) :=
  ⟨⟨by decide, by decide, by decide⟩,
   C3_recency_ordering regionA2 [regionA, regionB]
     (by decide) (by decide) (by decide)⟩

/-! ## C7 -/

/-- The initial search state of `LocationPanel`. -/
def searchInit : SearchState :=
  { searchResults := [], showResults := false, isSearching := false,
    latestIssued := none }

/-- A concrete response payload used in the stale-response trace. -/
def staleResult : LocationSearchResult :=
  { name := "Aberdeen", state := some "SD", lat := 45, lon := -98,
    population := none, locType := "city" }

/-- C7 (counterexample): with requests for "ab" and then "abc" both in
flight, the late response for "ab" — not the latest issued query — is
applied anyway and changes the displayed results: `performSearch` has no
staleness comparison. -/
theorem C7_counterexample :
    (issueSearch (issueSearch searchInit "ab") "abc").latestIssued ≠
      some "ab" ∧
    (applyResponse (issueSearch (issueSearch searchInit "ab") "abc") "ab"
        (SearchOutcome.ok [staleResult])).searchResults ≠
      (issueSearch (issueSearch searchInit "ab") "abc").searchResults := by
  refine ⟨by decide, by decide⟩

/-- C7 (amended): every arriving response is applied unconditionally, in
arrival order — the displayed results become exactly the response's result
list (empty on error), whatever the latest issued query is; the last
response to arrive wins. -/
theorem C7_response_applied_unconditionally (s : SearchState) (q : String)
    (results : List LocationSearchResult) :
    (applyResponse s q (SearchOutcome.ok results)).searchResults = results ∧
    (applyResponse s q (SearchOutcome.ok results)).latestIssued =
      s.latestIssued ∧
    (applyResponse s q SearchOutcome.err).searchResults = [] :=
  ⟨rfl, rfl, rfl⟩
